import Mathlib

/-!
Verification development for the slate-sync module
(`src/packages/slate-sync/index.js`).

The module consists of a deploy coalescer (module globals `deploying` and
`filesToDeploy`, functions `maybeDeploy`, `deploy`, `promiseThemekitConfig`,
`promiseThemekitDeploy`, and the exported `sync`, `upload`, `replace`) and a
theme lookup helper `fetchMainThemeId`.

The embedding has three layers:

* a JSON value model and a translation of the response handling of
  `fetchMainThemeId` (source lines 147-215);
* a denotational model of one `deploy` invocation together with the flag
  assembly and the themekit executor calls (source lines 28-139), used for
  the error-swallowing claims;
* a small-step event system over the module state (`deploying`,
  `filesToDeploy`) and the set of suspended `deploy` coroutines, used for
  the queueing / busy-flag claims.  Steps are the synchronous segments
  between the `await` suspension points of the source.
-/

namespace SlateSync

/-! ## JSON values and the JavaScript semantics used by `fetchMainThemeId` -/

/-- Model of a parsed JSON value (`JSON.parse` output).  Numbers are modelled
as integers: every numeric payload relevant to the claims is integral, and no
arithmetic is performed on them.  Objects are field lists with distinct keys,
as produced by `JSON.parse`. -/
inductive Json where
  | null
  | bool (b : Bool)
  | num (n : Int)
  | str (s : String)
  | arr (elems : List Json)
  | obj (fields : List (String × Json))

/-- Property access `v[k]` for a JavaScript value that is not `null`:
on an object it is the field value (or `undefined`, modelled as `none`);
on any other non-null value it is `undefined`. -/
def jsGet (v : Json) (k : String) : Option Json :=
  match v with
  | Json.obj fields => fields.lookup k
  | _ => none

/-- Property access `v[k]` as executed by the source: accessing a property of
`null` throws a `TypeError`, which the handler does not catch. -/
def getField (v : Json) (k : String) : Except String (Option Json) :=
  match v with
  | Json.null => Except.error ("TypeError: cannot read property " ++ k ++ " of null")
  | Json.obj fields => Except.ok (fields.lookup k)
  | _ => Except.ok none

/-- JavaScript truthiness of a possibly-undefined value, as used by
`if (parsed.errors)` (source line 169): `undefined`, `null`, `false`, `0`
and the empty string are falsy, everything else is truthy. -/
def jsTruthy (v : Option Json) : Bool :=
  match v with
  | none => false
  | some Json.null => false
  | some (Json.bool b) => b
  | some (Json.num n) => n != 0
  | some (Json.str s) => s != ""
  | some (Json.arr _) => true
  | some (Json.obj _) => true

/-- Whether a JSON value is an array, as tested by `Array.isArray` on a
possibly-undefined value (source line 182). -/
def isJsonArr (v : Option Json) : Bool :=
  match v with
  | some (Json.arr _) => true
  | _ => false

/-- Whether a value is the JSON `null`.  Used to state, in executable form,
that the elements of a `themes` array do not make `t.role` throw. -/
def jsIsNull (v : Json) : Bool :=
  match v with
  | Json.null => true
  | _ => false

/-- Translation of `parsed.themes.find((t) => t.role === "main")`
(source line 195).  The strict comparison `t.role === "main"` holds exactly
when the `role` field is the string `"main"`; accessing `t.role` on a `null`
element throws. -/
def findMain : List Json → Except String (Option Json)
  | [] => Except.ok none
  | t :: ts =>
    match getField t "role" with
    | Except.error m => Except.error m
    | Except.ok r =>
      match r with
      | some (Json.str s) => if s = "main" then Except.ok (some t) else findMain ts
      | _ => findMain ts

/-- Predicate form of the `find` callback `(t) => t.role === "main"`, for
elements on which the access does not throw. -/
def isMain (t : Json) : Bool :=
  match jsGet t "role" with
  | some (Json.str s) => s == "main"
  | _ => false

/-- Settlement of the promise returned by `fetchMainThemeId`: either a
resolution with `mainTheme.id` or one of the three rejections of the source
(lines 169-210).  Each rejection carries the payload that the source
serializes into its error message. -/
inductive SettleResult where
  | resolved (id : Option Json)
  | apiError (payload : Option Json)
  | malformedResponse (parsed : Json)
  | noMainTheme (themes : List Json)

/-- Outcome of the `res.on("end", ...)` callback (source lines 166-211):
either the promise settles, or an exception escapes the callback uncaught
and the promise never settles. -/
inductive HandlerOutcome where
  | settle (r : SettleResult)
  | uncaught (msg : String)

/-- Translation of the body of the `end` callback of `fetchMainThemeId`
(source lines 166-211).  The input is the result of `JSON.parse(body)`:
the parse runs with no surrounding try/catch, so a parse error propagates
out of the callback uncaught.  After a successful parse the source checks,
in order: a truthy `parsed.errors` (reject with the api error), then
`Array.isArray(parsed.themes)` (reject as malformed otherwise), then the
first element with `role === "main"` (reject when absent), and finally
resolves with `mainTheme.id`. -/
def fetchMainThemeIdOnEnd (parseResult : Except String Json) : HandlerOutcome :=
  match parseResult with
  | Except.error m => HandlerOutcome.uncaught m
  | Except.ok parsed =>
    match getField parsed "errors" with
    | Except.error m => HandlerOutcome.uncaught m
    | Except.ok errs =>
      if jsTruthy errs then
        HandlerOutcome.settle (SettleResult.apiError errs)
      else
        match getField parsed "themes" with
        | Except.error m => HandlerOutcome.uncaught m
        | Except.ok themesVal =>
          match themesVal with
          | some (Json.arr themes) =>
            match findMain themes with
            | Except.error m => HandlerOutcome.uncaught m
            | Except.ok none => HandlerOutcome.settle (SettleResult.noMainTheme themes)
            | Except.ok (some mainTheme) =>
              match getField mainTheme "id" with
              | Except.error m => HandlerOutcome.uncaught m
              | Except.ok v => HandlerOutcome.settle (SettleResult.resolved v)
          | _ => HandlerOutcome.settle (SettleResult.malformedResponse parsed)

/-- Whether an object value carries a field named `k` at all (used to state
that a response "contains an errors field" independently of truthiness). -/
def hasField (v : Json) (k : String) : Bool :=
  match v with
  | Json.obj fields => (fields.lookup k).isSome
  | _ => false

/-! ## Environment provider and the outgoing lookup request -/

/-- The values supplied by the external environment provider
(`@shopify/slate-env`).  `isValid` models `slateEnv.validate().isValid`;
the remaining fields model the accessor results.  An empty string for
`timeout` or `ignoreFiles` models an unset (falsy) value, matching the
truthiness tests of `_generateConfigFlags` (source lines 54-61). -/
structure Env where
  isValid : Bool
  password : String
  themeId : String
  store : String
  envName : String
  timeout : String
  ignoreFiles : String
deriving DecidableEq

/-- The JavaScript string conversion of the accessor function object
`slateEnv.getPasswordValue`.  The source interpolates the function itself,
not its invoked value, into the template (source line 155), so the result is
one fixed string; its exact text comes from the external provider and is
irrelevant here — only that it is a constant independent of the environment
values. -/
def getPasswordValueFnText : String := "[Function getPasswordValue]"

/-- The options object passed to `https.get` by `fetchMainThemeId`
(source lines 151-160).  `xShopifyAccessToken` is the single entry of the
`headers` object. -/
structure HttpsGetOptions where
  hostname : String
  path : String
  auth : String
  agent : Bool
  xShopifyAccessToken : String
deriving DecidableEq

/-- Assembly of the request options of `fetchMainThemeId` (source lines
151-160): the `auth` field is built from the template
of a colon followed by the accessor function object (the function is not
invoked), while the access-token header carries the invoked password
value. -/
def fetchRequestOptions (env : Env) : HttpsGetOptions where
  hostname := env.store
  path := "/admin/themes.json"
  auth := ":" ++ getPasswordValueFnText
  agent := false
  xShopifyAccessToken := env.password

/-! ## Denotational model of one `deploy` invocation -/

/-- The flag object assembled for a themekit invocation.  Fields follow the
keys set by the source: the first four always (lines 48-53), `timeout` and
`ignoredFiles` conditionally (lines 54-61), and `files`, `noDelete`,
`allowLive` only on the deploy step (lines 115-126). -/
structure ConfigFlags where
  password : String
  themeid : String
  store : String
  env : String
  timeout : Option String
  ignoredFiles : Option (List String)
  files : Option (List String)
  noDelete : Bool
  allowLive : Bool
deriving DecidableEq

/-- Outcome of a code path that may terminate the whole process via
`process.exit` (source line 41). -/
inductive ProcOutcome (α : Type) where
  | exited (code : Nat)
  | normal (a : α)
deriving DecidableEq

/-- Translation of `_validateEnvValues` (source lines 28-43): exits the
process with status 1 when the environment is invalid, otherwise returns. -/
def _validateEnvValues (env : Env) : ProcOutcome Unit :=
  if env.isValid then ProcOutcome.normal () else ProcOutcome.exited 1

/-- The flag object built by `_generateConfigFlags` in the valid-environment
case (source lines 48-63): base flags from the accessors, plus `timeout`
when truthy, plus `ignoredFiles` (the ignore list split on colons) when
truthy.  The deploy-step-only fields are absent. -/
def baseFlags (env : Env) : ConfigFlags :=
  let flags : ConfigFlags :=
    ⟨env.password, env.themeId, env.store, env.envName, none, none, none, false, false⟩
  let flags := if env.timeout = "" then flags else { flags with timeout := some env.timeout }
  if env.ignoreFiles = "" then flags
  else { flags with ignoredFiles := some (env.ignoreFiles.splitOn ":") }

/-- Translation of `_generateConfigFlags` (source lines 45-64): validates the
environment (possibly exiting the process) and assembles the flag object. -/
def _generateConfigFlags (env : Env) : ProcOutcome ConfigFlags :=
  match _validateEnvValues env with
  | ProcOutcome.exited c => ProcOutcome.exited c
  | ProcOutcome.normal _ => ProcOutcome.normal (baseFlags env)

/-- Result of one themekit executor command, as reported by the external
tool: success, or a raised error with a message. -/
inductive ThemekitResult where
  | ok
  | err (msg : String)
deriving DecidableEq

/-- Behaviour of the external deploy executor for one deploy operation: what
its `configure` command and its `deploy` command each report. -/
structure Executor where
  configureResult : ThemekitResult
  deployResult : ThemekitResult
deriving DecidableEq

/-- One recorded invocation `themekit.command(name, flags, ...)` of the
external executor. -/
structure ExecCall where
  name : String
  flags : ConfigFlags
deriving DecidableEq

/-- The flag object passed to the themekit `deploy` command
(source lines 113-126): the generated flags, then `files` is set (a
JavaScript array is always truthy, so the `if (files)` guard always fires),
then `noDelete` exactly when the command is `"upload"`, then `allow-live`
is set to true. -/
def deployFlags (env : Env) (cmd : String) (files : List String) : ConfigFlags :=
  let configFlags := baseFlags env
  let configFlags := { configFlags with files := some files }
  let configFlags :=
    if cmd = "upload" then { configFlags with noDelete := true } else configFlags
  { configFlags with allowLive := true }

/-- Translation of `promiseThemekitConfig` (source lines 96-110): generate
the flags (possibly exiting), invoke the executor `configure` command, and
catch any error it raises (the catch only logs, source lines 107-109).  The
returned list records the executor invocations made. -/
def promiseThemekitConfig (env : Env) (ex : Executor) : ProcOutcome (List ExecCall) :=
  match _generateConfigFlags env with
  | ProcOutcome.exited c => ProcOutcome.exited c
  | ProcOutcome.normal configFlags =>
    match ex.configureResult with
    | ThemekitResult.ok => ProcOutcome.normal [⟨"configure", configFlags⟩]
    | ThemekitResult.err _ => ProcOutcome.normal [⟨"configure", configFlags⟩]

/-- Translation of `promiseThemekitDeploy` (source lines 112-139): generate
the flags (possibly exiting), extend them with the deploy-step fields,
invoke the executor `deploy` command, and catch any error it raises (the
catch only logs, source lines 136-138). -/
def promiseThemekitDeploy (env : Env) (ex : Executor) (cmd : String)
    (files : List String) : ProcOutcome (List ExecCall) :=
  match _generateConfigFlags env with
  | ProcOutcome.exited c => ProcOutcome.exited c
  | ProcOutcome.normal _ =>
    match ex.deployResult with
    | ThemekitResult.ok => ProcOutcome.normal [⟨"deploy", deployFlags env cmd files⟩]
    | ThemekitResult.err _ => ProcOutcome.normal [⟨"deploy", deployFlags env cmd files⟩]

/-- How the promise returned by `deploy` settles: a rejection for a bad
command argument (the throw on source lines 74-78), process exit during
flag generation, or fulfillment (the function resolves with the
`maybeDeploy` function value, source line 93). -/
inductive DeployOutcome where
  | rejectedInvalidCmd
  | exited (code : Nat)
  | fulfilled
deriving DecidableEq

/-- Observable result of one `deploy(cmd, files)` invocation: how its
promise settles, the executor invocations it performed in order, and the
value of the `deploying` flag once it is done. -/
structure DeployRun where
  outcome : DeployOutcome
  calls : List ExecCall
  deployingAfter : Bool
deriving DecidableEq

/-- Translation of `deploy` (source lines 73-94).  An invalid command throws
before the `deploying` flag is touched, so the flag keeps its previous
value.  Otherwise `deploying` is set, the configure step and the transfer
step run in order — each swallowing executor errors internally, so the
outer try/catch of lines 84-89 never observes a rejection from them — and
`deploying` is cleared before the promise fulfils. -/
def deploy (env : Env) (ex : Executor) (cmd : String) (files : List String)
    (deployingBefore : Bool) : DeployRun :=
  if cmd = "upload" ∨ cmd = "replace" then
    match promiseThemekitConfig env ex with
    | ProcOutcome.exited c => ⟨DeployOutcome.exited c, [], true⟩
    | ProcOutcome.normal calls1 =>
      match promiseThemekitDeploy env ex cmd files with
      | ProcOutcome.exited c => ⟨DeployOutcome.exited c, calls1, true⟩
      | ProcOutcome.normal calls2 =>
        ⟨DeployOutcome.fulfilled, calls1 ++ calls2, false⟩
  else
    ⟨DeployOutcome.rejectedInvalidCmd, [], deployingBefore⟩

/-! ## Event system for the deploy coalescer

The remaining claims concern interleavings of the exported operations with
in-flight deploys.  We model the module as a small-step system.  A step is
one synchronous segment of JavaScript execution: either an exported call
running until it returns (which, for a call that starts a deploy, includes
the synchronous prefix of `deploy` up to its first suspension — setting
`deploying`, generating the configure flags and issuing the executor
`configure` command), or the resumption of a suspended `deploy` coroutine
when its awaited executor command settles.  The environment is assumed
valid in this system (an invalid environment terminates the process inside
the first flag generation; the denotational `deploy` model covers that
path), so flag contents are omitted from the recorded trace. -/

/-- The two valid command modes of `deploy` (the exported entry points only
ever pass `"upload"` or `"replace"`). -/
inductive Cmd where
  | upload
  | replace
deriving DecidableEq

/-- Where a suspended `deploy` coroutine is stopped: awaiting the executor
`configure` command (inside `promiseThemekitConfig`), or awaiting the
executor `deploy` command (inside `promiseThemekitDeploy`). -/
inductive Phase where
  | awaitConfigure
  | awaitTransfer
deriving DecidableEq

/-- One suspended `deploy(cmd, files)` coroutine. -/
structure Task where
  cmd : Cmd
  files : List String
  phase : Phase
deriving DecidableEq

/-- One executor invocation as recorded in this system: the `configure`
command, or the `deploy` command together with its mode and explicit file
list. -/
inductive TraceEv where
  | configureCall
  | deployCall (cmd : Cmd) (files : List String)
deriving DecidableEq

/-- A promise settlement observable by the callers of the exported
operations, in settlement order: the `sync` rejection for an empty file
list (source line 220), the `maybeDeploy` rejection while busy (source
line 16), the trivial `maybeDeploy` resolution with an empty queue (source
line 25), and the fulfilment of a deploy (which resolves with the
`maybeDeploy` function value, source line 93). -/
inductive SettledResult where
  | rejectedNoFiles
  | rejectedAlreadyInProgress
  | resolvedIdleNoFiles
  | deployFulfilled
deriving DecidableEq

/-- The whole system: the module globals `deploying` (source line 11) and
`filesToDeploy` (source line 12), the suspended deploy coroutines, the
executor invocations so far, and the promise settlements so far. -/
structure Sys where
  deploying : Bool
  filesToDeploy : List String
  tasks : List Task
  trace : List TraceEv
  results : List SettledResult
deriving DecidableEq

/-- The initial state: idle, nothing pending (source lines 11-12). -/
def initSys : Sys := ⟨false, [], [], [], []⟩

/-- Translation of `[...new Set([...filesToDeploy, ...files])]` (source
line 223): concatenation deduplicated keeping first occurrences. -/
def dedupeConcat (xs ys : List String) : List String :=
  (xs ++ ys).foldl (fun acc f => if acc.contains f then acc else acc ++ [f]) []

/-- An external event driving one step of the system: one of the exported
calls `sync` / `upload` / `replace`, a direct `maybeDeploy` call (the
attempt-deploy operation), or the settlement — successful or not — of the
executor command awaited by the coroutine at index `i`.  The `err` flag of
a resumption records whether the awaited command failed; the transition
ignores it because both `promiseThemekitConfig` and `promiseThemekitDeploy`
catch the error and continue (source lines 107-109 and 136-138). -/
inductive Event where
  | callSync (files : List String)
  | callMaybeDeploy
  | callUpload
  | callReplace
  | resume (i : Nat) (err : Bool)
deriving DecidableEq

/-- The synchronous prefix of `deploy(cmd, files)` for a valid command
(source lines 80-85): set `deploying`, then run `promiseThemekitConfig` up
to its suspension — which issues the executor `configure` command — and
suspend the coroutine there. -/
def startDeploy (s : Sys) (cmd : Cmd) (files : List String) : Sys :=
  { s with
      deploying := true
      tasks := s.tasks ++ [⟨cmd, files, Phase.awaitConfigure⟩]
      trace := s.trace ++ [TraceEv.configureCall] }

/-- Translation of `maybeDeploy` (source lines 14-26): reject while
`deploying`; otherwise, with a non-empty queue, snapshot and clear it and
start `deploy("upload", snapshot)`; otherwise resolve trivially.  No
suspension point separates the check, the clear and the start. -/
def runMaybeDeploy (s : Sys) : Sys :=
  if s.deploying then
    { s with results := s.results ++ [SettledResult.rejectedAlreadyInProgress] }
  else if s.filesToDeploy.isEmpty then
    { s with results := s.results ++ [SettledResult.resolvedIdleNoFiles] }
  else
    startDeploy { s with filesToDeploy := [] } Cmd.upload s.filesToDeploy

/-- Resumption of the suspended coroutine at index `i` when its awaited
executor command settles.  From `awaitConfigure`, the caught result lets
`promiseThemekitConfig` return, and `deploy` runs on to
`promiseThemekitDeploy`, which issues the executor `deploy` command and
suspends again (source lines 85-86, 112-135).  From `awaitTransfer`, the
caught result lets `deploy` finish: it clears `deploying` and fulfils,
returning the `maybeDeploy` function without invoking it (source lines
91-93). -/
def resumeTask (s : Sys) (i : Nat) : Sys :=
  match s.tasks[i]? with
  | none => s
  | some t =>
    match t.phase with
    | Phase.awaitConfigure =>
      { s with
          tasks := s.tasks.set i ⟨t.cmd, t.files, Phase.awaitTransfer⟩
          trace := s.trace ++ [TraceEv.deployCall t.cmd t.files] }
    | Phase.awaitTransfer =>
      { s with
          tasks := s.tasks.eraseIdx i
          deploying := false
          results := s.results ++ [SettledResult.deployFulfilled] }

/-- One step of the system.  `callSync` translates the exported `sync`
(source lines 218-226): reject an empty file list, otherwise merge into the
queue and run `maybeDeploy`.  `callUpload` and `callReplace` translate the
exported `upload` and `replace` (source lines 228-234): they call `deploy`
directly, with no busy-flag check. -/
def step (s : Sys) (e : Event) : Sys :=
  match e with
  | Event.callSync files =>
    if files.isEmpty then
      { s with results := s.results ++ [SettledResult.rejectedNoFiles] }
    else
      runMaybeDeploy { s with filesToDeploy := dedupeConcat s.filesToDeploy files }
  | Event.callMaybeDeploy => runMaybeDeploy s
  | Event.callUpload => startDeploy s Cmd.upload []
  | Event.callReplace => startDeploy s Cmd.replace []
  | Event.resume i _ => resumeTask s i

/-- A run of the system: the steps induced by a list of events in order. -/
def run (s : Sys) (es : List Event) : Sys := es.foldl step s

/-! ## Helper lemmas -/

/-- Field access on an object value returns the field lookup. -/
theorem getField_obj (fields : List (String × Json)) (k : String) :
    getField (Json.obj fields) k = Except.ok (fields.lookup k) := rfl

/-- On a non-null value, the throwing field access agrees with plain
JavaScript property access. -/
theorem getField_eq_jsGet (t : Json) (k : String) (h : jsIsNull t = false) :
    getField t k = Except.ok (jsGet t k) := by
  cases t <;> first | rfl | simp [jsIsNull] at h

/-- A value satisfying the main-role predicate is not `null` (its `role`
access yielded a string). -/
theorem isMain_not_null (t : Json) (h : isMain t = true) : jsIsNull t = false := by
  cases t <;> first | rfl | simp [isMain, jsGet] at h

/-- Over a list without `null` elements, the translated `find` neither
throws nor differs from the first element satisfying the main-role
predicate. -/
theorem findMain_eq_find (themes : List Json)
    (h : themes.all (fun t => !jsIsNull t) = true) :
    findMain themes = Except.ok (themes.find? isMain) := by
  induction themes with
  | nil => rfl
  | cons t ts ih =>
    simp only [List.all_cons, Bool.and_eq_true] at h
    obtain ⟨h1, h2⟩ := h
    have h1' : jsIsNull t = false := by
      cases hjt : jsIsNull t
      · rfl
      · rw [hjt] at h1; exact absurd h1 (by decide)
    rw [List.find?]
    simp only [findMain, getField_eq_jsGet t "role" h1']
    cases hr : jsGet t "role" with
    | none => simp [isMain, hr, ih h2]
    | some j =>
      cases j with
      | str s =>
        by_cases hs : s = "main"
        · simp [isMain, hr, hs]
        · have hs' : (s == "main") = false := by simp [hs]
          simp [isMain, hr, hs, hs', ih h2]
      | null => simp [isMain, hr, ih h2]
      | bool b => simp [isMain, hr, ih h2]
      | num n => simp [isMain, hr, ih h2]
      | arr xs => simp [isMain, hr, ih h2]
      | obj fs => simp [isMain, hr, ih h2]

/-! ## Claim C1 -/

/-- A state in which a deploy is in flight: the one reached from the
initial state by `sync(["a.liquid"])`, which starts a deploy and sets
`deploying`. -/
def c1BusyState : Sys := step initSys (Event.callSync ["a.liquid"])

/-- Claim C1, counterexample.  The claim extends the busy-state exclusion
to `upload()` and `replace()`; the code does not: from a busy state,
`upload()` settles no rejection at all (`results` is unchanged), starts a
second concurrent deploy coroutine (two tasks in flight), and issues a
further executor `configure` invocation. -/
theorem c1_counterexample :
    c1BusyState.deploying = true
  ∧ (step c1BusyState Event.callUpload).results = c1BusyState.results
  ∧ (step c1BusyState Event.callUpload).tasks.length = 2
  ∧ (step c1BusyState Event.callUpload).trace
      = c1BusyState.trace ++ [TraceEv.configureCall] := by decide

/-- Claim C1, amended: the `AlreadyInProgressError` exclusion holds for
deploy requests made through `sync` and `attemptDeploy` (`maybeDeploy`) —
while busy these are rejected and start nothing — but `upload()` and
`replace()` bypass the busy check and start a deploy coroutine even while
one is in flight. -/
theorem c1_amended_exclusion_only_on_queue_path (s : Sys) (files : List String)
    (hbusy : s.deploying = true) (hne : files ≠ []) :
    (step s (Event.callSync files)).results
        = s.results ++ [SettledResult.rejectedAlreadyInProgress]
  ∧ (step s (Event.callSync files)).tasks = s.tasks
  ∧ (step s (Event.callSync files)).trace = s.trace
  ∧ (step s Event.callMaybeDeploy).results
        = s.results ++ [SettledResult.rejectedAlreadyInProgress]
  ∧ (step s Event.callMaybeDeploy).tasks = s.tasks
  ∧ (step s Event.callMaybeDeploy).trace = s.trace
  ∧ (step s Event.callUpload).tasks
        = s.tasks ++ [Task.mk Cmd.upload [] Phase.awaitConfigure]
  ∧ (step s Event.callUpload).results = s.results
  ∧ (step s Event.callReplace).tasks
        = s.tasks ++ [Task.mk Cmd.replace [] Phase.awaitConfigure]
  ∧ (step s Event.callReplace).results = s.results := by
  cases files with
  | nil => exact absurd rfl hne
  | cons f fs =>
    refine ⟨?_, ?_, ?_, ?_, ?_, ?_, ?_, ?_, ?_, ?_⟩ <;>
      simp [step, runMaybeDeploy, startDeploy, hbusy]

/-- Claim C1, witness: a concrete busy state in which a further `sync`
call is rejected with the in-progress error. -/
theorem c1_amended_witness :
    (step (Sys.mk true ["p.liquid"] [] [] []) (Event.callSync ["x.liquid"])).results
      = [SettledResult.rejectedAlreadyInProgress] :=
  (c1_amended_exclusion_only_on_queue_path
    (Sys.mk true ["p.liquid"] [] [] []) ["x.liquid"] rfl (by decide)).1

/-! ## Claim C2 -/

/-- The event sequence of the claim: from idle, `sync(["a.liquid"])`, then
`sync(["a.liquid","b.liquid"])` (issued while the deploy started by the
first call is still suspended — no suspension point of the first deploy
has resumed yet), then the two resumptions that drive that deploy to
completion. -/
def c2Events : List Event :=
  [Event.callSync ["a.liquid"],
   Event.callSync ["a.liquid", "b.liquid"],
   Event.resume 0 false,
   Event.resume 0 false]

/-- Claim C2, counterexample.  The first `sync` call snapshots and clears
the queue synchronously, so the single executor transfer of the run
carries only `["a.liquid"]` — not the deduplicated set of both batches as
the claim requires.  (In the other possible schedule, where the second
`sync` arrives only after the first deploy completed, two transfers occur;
in no schedule does exactly one transfer carry both files.) -/
theorem c2_counterexample :
    (run initSys c2Events).trace
        = [TraceEv.configureCall, TraceEv.deployCall Cmd.upload ["a.liquid"]]
  ∧ (run initSys c2Events).trace
        ≠ [TraceEv.configureCall,
           TraceEv.deployCall Cmd.upload
             (dedupeConcat ["a.liquid"] ["a.liquid", "b.liquid"])] := by decide

/-- Claim C2, amended: enqueueing `["a.liquid"]` and then
`["a.liquid","b.liquid"]` while the first deploy is in flight results in
exactly one executor transfer, carrying only `["a.liquid"]`; the second
call is rejected as already in progress, and the deduplicated set
`["a.liquid","b.liquid"]` remains accumulated in the pending queue after
the deploy completes. -/
theorem c2_amended_single_transfer_carries_first_batch :
    (run initSys c2Events).trace
        = [TraceEv.configureCall, TraceEv.deployCall Cmd.upload ["a.liquid"]]
  ∧ (run initSys c2Events).filesToDeploy = ["a.liquid", "b.liquid"]
  ∧ (run initSys c2Events).results
      = [SettledResult.rejectedAlreadyInProgress, SettledResult.deployFulfilled]
  ∧ (run initSys c2Events).deploying = false
  ∧ (run initSys c2Events).tasks = [] := by decide

/-! ## Claim C3 -/

/-- Claim C3: with a valid environment and a valid command, one `deploy`
invocation fulfils its promise and clears the `deploying` flag for every
executor behaviour — in particular when the configure step or the transfer
step (or both) raise errors, which are caught and logged, never
propagated. -/
theorem c3_executor_errors_swallowed_and_idle_restored
    (env : Env) (ex : Executor) (cmd : String) (files : List String)
    (d0 : Bool) (hv : env.isValid = true) (hcmd : cmd = "upload" ∨ cmd = "replace") :
    (deploy env ex cmd files d0).outcome = DeployOutcome.fulfilled
  ∧ (deploy env ex cmd files d0).deployingAfter = false := by
  rcases ex with ⟨cr, dr⟩
  cases cr <;> cases dr <;>
    simp [deploy, promiseThemekitConfig, promiseThemekitDeploy, _generateConfigFlags,
      _validateEnvValues, hv, hcmd]

/-- Claim C3, witness: a deploy whose configure and transfer steps both
fail still fulfils. -/
theorem c3_witness :
    (deploy (Env.mk true "pw" "123" "store.example.com" "production" "" "")
        (Executor.mk (ThemekitResult.err "configure failed")
          (ThemekitResult.err "deploy failed"))
        "upload" ["a.liquid"] false).outcome = DeployOutcome.fulfilled :=
  (c3_executor_errors_swallowed_and_idle_restored
    (Env.mk true "pw" "123" "store.example.com" "production" "" "")
    (Executor.mk (ThemekitResult.err "configure failed") (ThemekitResult.err "deploy failed"))
    "upload" ["a.liquid"] false rfl (Or.inl rfl)).1

/-! ## Claim C4 -/

/-- Claim C4, counterexample.  A parsed response whose `themes` sequence
contains a main element can still fail: when the response also carries a
truthy `errors` field, the handler rejects with the api error instead of
resolving to the id of the main element, because the errors check runs
first. -/
theorem c4_counterexample :
    fetchMainThemeIdOnEnd (Except.ok (Json.obj [("errors", Json.str "invalid token"),
        ("themes", Json.arr [Json.obj [("id", Json.num 2), ("role", Json.str "main")]])]))
      = HandlerOutcome.settle (SettleResult.apiError (some (Json.str "invalid token")))
  ∧ fetchMainThemeIdOnEnd (Except.ok (Json.obj [("errors", Json.str "invalid token"),
        ("themes", Json.arr [Json.obj [("id", Json.num 2), ("role", Json.str "main")]])]))
      ≠ HandlerOutcome.settle (SettleResult.resolved (some (Json.num 2))) :=
  ⟨rfl, fun h => by injection h with h1; exact SettleResult.noConfusion h1⟩

/-- Claim C4, amended: for every parsed response that is an object with no
truthy `errors` field and whose `themes` field is a sequence of non-null
values, if some element has role `"main"` then the handler resolves to the
`id` field of the first such element in response order. -/
theorem c4_amended_resolves_first_main_theme
    (fields : List (String × Json)) (themes : List Json) (mt : Json)
    (herr : jsTruthy (fields.lookup "errors") = false)
    (hth : fields.lookup "themes" = some (Json.arr themes))
    (hnn : themes.all (fun t => !jsIsNull t) = true)
    (hfind : themes.find? isMain = some mt) :
    fetchMainThemeIdOnEnd (Except.ok (Json.obj fields))
      = HandlerOutcome.settle (SettleResult.resolved (jsGet mt "id")) := by
  have hmt : isMain mt = true := List.find?_some hfind
  have hmtnull : jsIsNull mt = false := isMain_not_null mt hmt
  simp only [fetchMainThemeIdOnEnd, getField_obj, herr, hth,
    findMain_eq_find themes hnn, hfind, getField_eq_jsGet mt "id" hmtnull,
    Bool.false_eq_true, if_false]

/-- Claim C4, witness: the response with an unpublished theme of id 1 and
a main theme of id 2 resolves to 2. -/
theorem c4_amended_witness :
    fetchMainThemeIdOnEnd (Except.ok (Json.obj [("themes", Json.arr
        [Json.obj [("id", Json.num 1), ("role", Json.str "unpublished")],
         Json.obj [("id", Json.num 2), ("role", Json.str "main")]])]))
      = HandlerOutcome.settle (SettleResult.resolved (some (Json.num 2))) :=
  c4_amended_resolves_first_main_theme
    [("themes", Json.arr
        [Json.obj [("id", Json.num 1), ("role", Json.str "unpublished")],
         Json.obj [("id", Json.num 2), ("role", Json.str "main")]])]
    [Json.obj [("id", Json.num 1), ("role", Json.str "unpublished")],
     Json.obj [("id", Json.num 2), ("role", Json.str "main")]]
    (Json.obj [("id", Json.num 2), ("role", Json.str "main")])
    rfl rfl rfl rfl

/-! ## Claim C5 -/

/-- Claim C5, counterexample.  The source tests `if (parsed.errors)`, a
truthiness test, not field presence: a response that does contain an
`errors` field whose value is `null` is not rejected with the api error —
here it resolves to 2. -/
theorem c5_counterexample :
    hasField (Json.obj [("errors", Json.null),
        ("themes", Json.arr [Json.obj [("id", Json.num 2), ("role", Json.str "main")]])])
        "errors" = true
  ∧ fetchMainThemeIdOnEnd (Except.ok (Json.obj [("errors", Json.null),
        ("themes", Json.arr [Json.obj [("id", Json.num 2), ("role", Json.str "main")]])]))
      = HandlerOutcome.settle (SettleResult.resolved (some (Json.num 2)))
  ∧ fetchMainThemeIdOnEnd (Except.ok (Json.obj [("errors", Json.null),
        ("themes", Json.arr [Json.obj [("id", Json.num 2), ("role", Json.str "main")]])]))
      ≠ HandlerOutcome.settle (SettleResult.apiError (some Json.null)) :=
  ⟨rfl, rfl, fun h => by injection h with h1; exact SettleResult.noConfusion h1⟩

/-- Claim C5, amended: for every parsed response that is an object, the
checks run in order — a truthy `errors` field rejects with the api error;
otherwise, a `themes` field that is not a sequence rejects as malformed;
otherwise, a sequence of non-null elements none of which has role `"main"`
rejects as having no main theme. -/
theorem c5_amended_rejection_order (fields : List (String × Json)) (themes : List Json) :
    (jsTruthy (fields.lookup "errors") = true →
      fetchMainThemeIdOnEnd (Except.ok (Json.obj fields))
        = HandlerOutcome.settle (SettleResult.apiError (fields.lookup "errors")))
  ∧ (jsTruthy (fields.lookup "errors") = false →
      isJsonArr (fields.lookup "themes") = false →
      fetchMainThemeIdOnEnd (Except.ok (Json.obj fields))
        = HandlerOutcome.settle (SettleResult.malformedResponse (Json.obj fields)))
  ∧ (jsTruthy (fields.lookup "errors") = false →
      fields.lookup "themes" = some (Json.arr themes) →
      themes.all (fun t => !jsIsNull t) = true →
      themes.find? isMain = none →
      fetchMainThemeIdOnEnd (Except.ok (Json.obj fields))
        = HandlerOutcome.settle (SettleResult.noMainTheme themes)) := by
  refine ⟨?_, ?_, ?_⟩
  · intro herr
    simp only [fetchMainThemeIdOnEnd, getField_obj, herr, if_true]
  · intro herr hnarr
    simp only [fetchMainThemeIdOnEnd, getField_obj, herr, Bool.false_eq_true, if_false]
    cases hv : fields.lookup "themes" with
    | none => rfl
    | some j =>
      cases j with
      | arr xs => rw [hv] at hnarr; simp [isJsonArr] at hnarr
      | null => rfl
      | bool b => rfl
      | num n => rfl
      | str s2 => rfl
      | obj fs => rfl
  · intro herr hth hnn hfind
    simp only [fetchMainThemeIdOnEnd, getField_obj, herr, hth,
      findMain_eq_find themes hnn, hfind, Bool.false_eq_true, if_false]

/-- Claim C5, witness: the three rejection shapes on the three concrete
responses of the specification — a truthy errors payload, a non-sequence
`themes`, and a themes list with no main role. -/
theorem c5_amended_witness :
    fetchMainThemeIdOnEnd (Except.ok (Json.obj [("errors", Json.str "invalid token")]))
      = HandlerOutcome.settle (SettleResult.apiError (some (Json.str "invalid token")))
  ∧ fetchMainThemeIdOnEnd (Except.ok (Json.obj [("themes", Json.str "not-an-array")]))
      = HandlerOutcome.settle (SettleResult.malformedResponse
          (Json.obj [("themes", Json.str "not-an-array")]))
  ∧ fetchMainThemeIdOnEnd (Except.ok (Json.obj [("themes", Json.arr
        [Json.obj [("id", Json.num 1), ("role", Json.str "unpublished")]])]))
      = HandlerOutcome.settle (SettleResult.noMainTheme
          [Json.obj [("id", Json.num 1), ("role", Json.str "unpublished")]]) :=
  ⟨(c5_amended_rejection_order [("errors", Json.str "invalid token")] []).1 rfl,
   (c5_amended_rejection_order [("themes", Json.str "not-an-array")] []).2.1 rfl rfl,
   (c5_amended_rejection_order
      [("themes", Json.arr [Json.obj [("id", Json.num 1), ("role", Json.str "unpublished")]])]
      [Json.obj [("id", Json.num 1), ("role", Json.str "unpublished")]]).2.2
      rfl rfl rfl rfl⟩

/-! ## Claim C6 -/

/-- Claim C6: in every busy state, an `attemptDeploy` (`maybeDeploy`) call
rejects with the in-progress error and changes nothing else — the whole
resulting state equals the old state with only the rejection appended to
the settlements, so the pending file queue is untouched. -/
theorem c6_busy_attempt_rejected_state_preserved (s : Sys)
    (hbusy : s.deploying = true) :
    step s Event.callMaybeDeploy
      = { s with results := s.results ++ [SettledResult.rejectedAlreadyInProgress] } := by
  simp [step, runMaybeDeploy, hbusy]

/-- Claim C6, witness: a concrete busy state with one pending file. -/
theorem c6_witness :
    step (Sys.mk true ["a.liquid"] [] [] []) Event.callMaybeDeploy
      = Sys.mk true ["a.liquid"] [] [] [SettledResult.rejectedAlreadyInProgress] :=
  c6_busy_attempt_rejected_state_preserved (Sys.mk true ["a.liquid"] [] [] []) rfl

/-! ## Claim C7 -/

/-- Claim C7: the `auth` field of the outgoing lookup request is the fixed
placeholder built from the accessor function itself — identical across all
environments, hence independent of the password — while the access-token
header carries the invoked password value. -/
theorem c7_auth_placeholder_and_token_header (env env2 : Env) :
    (fetchRequestOptions env).auth = (fetchRequestOptions env2).auth
  ∧ (fetchRequestOptions env).auth = ":" ++ getPasswordValueFnText
  ∧ (fetchRequestOptions env).xShopifyAccessToken = env.password :=
  ⟨rfl, rfl, rfl⟩

/-! ## Claim C8 -/

/-- Claim C8: completing a deploy (the resumption of a coroutine suspended
on its transfer) leaves the pending file queue and the executor trace
unchanged, clears the busy flag and removes the coroutine — it starts no
new deploy; moreover no resumption, `upload()` or `replace()` ever changes
the pending queue, so accumulated files are flushed only by a later `sync`
or `attemptDeploy` call. -/
theorem c8_no_auto_drain_on_completion (s : Sys) (i : Nat) (err : Bool) (t : Task)
    (h1 : s.tasks[i]? = some t) (h2 : t.phase = Phase.awaitTransfer) :
    (step s (Event.resume i err)).filesToDeploy = s.filesToDeploy
  ∧ (step s (Event.resume i err)).trace = s.trace
  ∧ (step s (Event.resume i err)).deploying = false
  ∧ (step s (Event.resume i err)).tasks = s.tasks.eraseIdx i
  ∧ (∀ (j : Nat) (e : Bool), (step s (Event.resume j e)).filesToDeploy = s.filesToDeploy)
  ∧ (step s Event.callUpload).filesToDeploy = s.filesToDeploy
  ∧ (step s Event.callReplace).filesToDeploy = s.filesToDeploy := by
  refine ⟨?_, ?_, ?_, ?_, ?_, ?_, ?_⟩
  · simp [step, resumeTask, h1, h2]
  · simp [step, resumeTask, h1, h2]
  · simp [step, resumeTask, h1, h2]
  · simp [step, resumeTask, h1, h2]
  · intro j e
    cases hj : s.tasks[j]? with
    | none => simp [step, resumeTask, hj]
    | some t2 =>
      rcases t2 with ⟨c, f, ph⟩
      cases ph <;> simp [step, resumeTask, hj]
  · simp [step, startDeploy]
  · simp [step, startDeploy]

/-- Claim C8, witness: completing the in-flight deploy of a concrete state
leaves the file accumulated during the flight pending. -/
theorem c8_witness :
    (step (Sys.mk true ["b.liquid"] [Task.mk Cmd.upload ["a.liquid"] Phase.awaitTransfer] [] [])
        (Event.resume 0 false)).filesToDeploy = ["b.liquid"] :=
  (c8_no_auto_drain_on_completion
    (Sys.mk true ["b.liquid"] [Task.mk Cmd.upload ["a.liquid"] Phase.awaitTransfer] [] [])
    0 false (Task.mk Cmd.upload ["a.liquid"] Phase.awaitTransfer) rfl rfl).1

/-! ## Claim C9 -/

/-- Claim C9: when the buffered body fails to parse, the end callback
raises an uncaught exception — the promise of `fetchMainThemeId` settles
neither by resolution nor by any of the rejections. -/
theorem c9_parse_failure_never_settles (msg : String) (r : SettleResult) :
    fetchMainThemeIdOnEnd (Except.error msg) = HandlerOutcome.uncaught msg
  ∧ fetchMainThemeIdOnEnd (Except.error msg) ≠ HandlerOutcome.settle r :=
  ⟨rfl, fun h => by injection h⟩

/-! ## Claim C10 -/

/-- Claim C10: with a valid environment and a valid command, one `deploy`
invocation always performs exactly the configure invocation followed by
the transfer invocation of the executor — for every executor behaviour,
so in particular the transfer is attempted even when the configure step
failed, its error having been caught inside `promiseThemekitConfig`. -/
theorem c10_transfer_attempted_despite_configure_failure
    (env : Env) (ex : Executor) (cmd : String) (files : List String)
    (d0 : Bool) (hv : env.isValid = true) (hcmd : cmd = "upload" ∨ cmd = "replace") :
    (deploy env ex cmd files d0).calls
      = [ExecCall.mk "configure" (baseFlags env),
         ExecCall.mk "deploy" (deployFlags env cmd files)] := by
  rcases ex with ⟨cr, dr⟩
  cases cr <;> cases dr <;>
    simp [deploy, promiseThemekitConfig, promiseThemekitDeploy, _generateConfigFlags,
      _validateEnvValues, hv, hcmd]

/-- Claim C10, witness: a deploy whose configure step fails still performs
the transfer invocation. -/
theorem c10_witness :
    (deploy (Env.mk true "pw" "123" "store.example.com" "production" "" "")
        (Executor.mk (ThemekitResult.err "configure failed") ThemekitResult.ok)
        "replace" [] false).calls
      = [ExecCall.mk "configure"
           (baseFlags (Env.mk true "pw" "123" "store.example.com" "production" "" "")),
         ExecCall.mk "deploy"
           (deployFlags (Env.mk true "pw" "123" "store.example.com" "production" "" "")
             "replace" [])] :=
  c10_transfer_attempted_despite_configure_failure
    (Env.mk true "pw" "123" "store.example.com" "production" "" "")
    (Executor.mk (ThemekitResult.err "configure failed") ThemekitResult.ok)
    "replace" [] false rfl (Or.inr rfl)

end SlateSync
